import Mathlib

/-!
Shallow embedding of the invoice lifecycle, watcher, sweeper, issuer and
administrative handlers of the serverless digital-asset payments sample
(EVM variant under `lambda/`, Solana variant under
`non-evm-deployments/solana/lambda/`).

Modelling conventions:
* The DynamoDB invoice table is a list of `Invoice` records keyed by
  `invoiceId`; `dynUpdate` models `DocumentClient.update` on an existing
  record (all modelled call sites operate on records known to exist) and
  `dynPut` models `DocumentClient.put` (unconditional insert-or-replace).
* Chain RPC reads are pure oracles; submitted transactions are collected
  in a list so theorems can count on-chain operations.  The happy path is
  modelled: RPC calls do not fail.
* Timestamps are abstract `Nat` values passed in as `now`.
* JavaScript BigInt arithmetic is `Nat` (all quantities are non-negative;
  `a - b` only occurs guarded by `b < a` or deliberately truncated at 0,
  matching the source's control flow).
-/

/-- Invoice status values stored in the `status` attribute. -/
inductive Status where
  | pending
  | paid
  | swept
  | cancelled
deriving DecidableEq, Repr

/-- The string stored in DynamoDB for each status. -/
def Status.str : Status → String
  | .pending => "pending"
  | .paid => "paid"
  | .swept => "swept"
  | .cancelled => "cancelled"

/-- Parse a status string as the four known statuses. -/
def parseStatus (s : String) : Option Status :=
  if s = "pending" then some .pending
  else if s = "paid" then some .paid
  else if s = "swept" then some .swept
  else if s = "cancelled" then some .cancelled
  else none

/-- An invoice record as stored by the issuer Lambdas.  The EVM issuer
stores `tokenAddress`, the Solana issuer stores `tokenMint`; both field
names are carried so one record type covers both table layouts. -/
structure Invoice where
  invoiceId : String
  address : String
  path : String
  currency : String
  tokenAddress : Option String := none
  tokenMint : Option String := none
  tokenSymbol : String := ""
  amount : String
  status : Status
  createdAt : Nat := 0
  paidAt : Option Nat := none
  sweptAt : Option Nat := none
  updatedAt : Option Nat := none
deriving DecidableEq, Repr

/-- The invoice table. -/
abbrev Store := List Invoice

/-- `DocumentClient.get` on the invoice table. -/
def getInvoice (store : Store) (id : String) : Option Invoice :=
  List.find? (fun inv => inv.invoiceId = id) store

/-- `DocumentClient.update` on an existing record: rewrite the record
with the given key, leave every other record unchanged. -/
def dynUpdate (store : Store) (id : String) (f : Invoice → Invoice) : Store :=
  List.map (fun inv => if inv.invoiceId = id then f inv else inv) store

/-- `DocumentClient.put`: unconditional insert-or-replace of the whole
item (no `ConditionExpression` appears at either issuer's `put` call). -/
def dynPut (store : Store) (item : Invoice) : Store :=
  if List.any store (fun inv => inv.invoiceId = item.invoiceId) then
    List.map (fun inv => if inv.invoiceId = item.invoiceId then item else inv) store
  else
    store ++ [item]

/-- Digit-run to number: the numeric value of a run of decimal digits. -/
def digitsToNat (cs : List Char) : Nat :=
  List.foldl (fun n c => n * 10 + (c.toNat - 48)) 0 cs

/-- Split a character list at every dot (the decimal-point split inside
`ethers.parseUnits`); always returns at least one segment. -/
def splitOnDot : List Char → List (List Char)
  | [] => [[]]
  | c :: rest =>
    match splitOnDot rest with
    | [] => [[]]
    | p :: ps => if c = '.' then [] :: p :: ps else (c :: p) :: ps

/-- `ethers.parseUnits(value, decimals)`: exact base-unit scaling of a
decimal string; `none` models the throw on a malformed value or on a
fractional part longer than `decimals`. -/
def parseUnits (s : String) (decimals : Nat) : Option Nat :=
  match splitOnDot s.data with
  | [w] =>
    if 0 < w.length ∧ w.all Char.isDigit then
      some (digitsToNat w * 10 ^ decimals)
    else none
  | [w, f] =>
    if (0 < w.length ∨ 0 < f.length) ∧ w.all Char.isDigit ∧ f.all Char.isDigit
        ∧ f.length ≤ decimals then
      some (digitsToNat w * 10 ^ decimals + digitsToNat f * 10 ^ (decimals - f.length))
    else none
  | _ => none

/-- `ethers.parseEther(value)` = `parseUnits(value, 18)`. -/
def parseEther (s : String) : Option Nat :=
  parseUnits s 18

/-! ## PaymentWatcher (`lambda/watcher/index.js`, and the Solana variant
whose `markPaid` is textually identical). -/

/-- `markPaid` from the watcher: a `DocumentClient.update` that sets
`status = 'paid'` and `paidAt = now`.  The source call carries no
`ConditionExpression`, so the write applies whatever the record's
current status is. -/
def markPaid (now : Nat) (store : Store) (invoiceId : String) : Store :=
  dynUpdate store invoiceId (fun inv => { inv with status := .paid, paidAt := some now })

/-- Chain read oracles used by one watcher cycle: native balance per
address, ERC-20 balance per (token, holder), and the token's on-chain
`decimals()`. -/
structure WatcherEnv where
  ethBalanceOf : String → Nat
  tokenBalanceOf : String → String → Nat
  tokenDecimalsOf : String → Nat
  now : Nat

/-- Accumulator threaded through the watcher's per-invoice loop:
the table plus the `processed` and `failed` id lists. -/
structure CycleState where
  store : Store
  processed : List String
  failed : List String
deriving DecidableEq, Repr

/-- One iteration of the watcher's `for (const invoice of Items)` loop.
`parseEther`/`parseUnits` failure and an insufficient balance both throw
in the source and are caught by the per-invoice `catch`, which records
the invoice in `failed`; a sufficient balance calls `markPaid` and
records it in `processed`; any other currency shape falls through the
`if`/`else if` chain with no effect. -/
def processInvoice (env : WatcherEnv) (st : CycleState) (inv : Invoice) : CycleState :=
  if inv.currency = "ETH" then
    match parseEther inv.amount with
    | none => { st with failed := st.failed ++ [inv.invoiceId] }
    | some required =>
      let balance := env.ethBalanceOf inv.address
      if required ≤ balance then
        { st with
          store := markPaid env.now st.store inv.invoiceId
          processed := st.processed ++ [inv.invoiceId] }
      else
        { st with failed := st.failed ++ [inv.invoiceId] }
  else
    match inv.tokenAddress with
    | some token =>
      if inv.currency = "ERC20" then
        match parseUnits inv.amount (env.tokenDecimalsOf token) with
        | none => { st with failed := st.failed ++ [inv.invoiceId] }
        | some required =>
          let balance := env.tokenBalanceOf token inv.address
          if required ≤ balance then
            { st with
              store := markPaid env.now st.store inv.invoiceId
              processed := st.processed ++ [inv.invoiceId] }
          else
            { st with failed := st.failed ++ [inv.invoiceId] }
      else st
    | none => st

/-- One watcher cycle (`exports.handler`): query the `status-index` for
`pending` invoices, then run the per-invoice loop over the result. -/
def runCycle (env : WatcherEnv) (store : Store) : CycleState :=
  let items := List.filter (fun inv => inv.status = .pending) store
  List.foldl (processInvoice env) ⟨store, [], []⟩ items

/-- Oracles used by one Solana watcher cycle (`unnamed/part_008`):
lamport balance per address, SPL balance per (mint, owner), whether the
invoice's associated token account exists (`getAccount` throws
`TokenAccountNotFoundError` when it does not), and the mint's on-chain
decimals.  The source decides sufficiency with IEEE-754 double
computations (`balance / LAMPORTS_PER_SOL >= parseFloat(amount)` for
SOL and `Number(balance) >= parseFloat(amount) * Math.pow(10, decimals)`
for SPL); floating-point numeric semantics are outside this embedding,
so the outcome of each comparison is taken as a Boolean oracle of the
same inputs. -/
structure SolWatcherEnv where
  solBalanceOf : String → Nat
  splBalanceOf : String → String → Nat
  splAccountExists : String → String → Bool
  mintDecimalsOf : String → Nat
  solSufficient : Nat → String → Bool
  splSufficient : Nat → String → Nat → Bool
  now : Nat

/-- One iteration of the Solana watcher's invoice loop
(`unnamed/part_008`): the SOL branch marks paid or throws
`Insufficient SOL` into the per-invoice catch (recorded in `failed`);
the SPL branch first reads the token account — a missing account is
only logged (the inner catch swallows `TokenAccountNotFoundError`,
neither list records it), an insufficient balance is rethrown to the
per-invoice catch and recorded in `failed`; other currency shapes fall
through with no effect. -/
def processSolInvoice (env : SolWatcherEnv) (st : CycleState) (inv : Invoice) : CycleState :=
  if inv.currency = "SOL" then
    let balance := env.solBalanceOf inv.address
    if env.solSufficient balance inv.amount then
      { st with
        store := markPaid env.now st.store inv.invoiceId
        processed := st.processed ++ [inv.invoiceId] }
    else
      { st with failed := st.failed ++ [inv.invoiceId] }
  else
    match inv.tokenMint with
    | some mint =>
      if inv.currency = "SPL" then
        if env.splAccountExists mint inv.address then
          let balance := env.splBalanceOf mint inv.address
          if env.splSufficient balance inv.amount (env.mintDecimalsOf mint) then
            { st with
              store := markPaid env.now st.store inv.invoiceId
              processed := st.processed ++ [inv.invoiceId] }
          else
            { st with failed := st.failed ++ [inv.invoiceId] }
        else st
      else st
    | none => st

/-- One Solana watcher cycle (`unnamed/part_008`, `exports.handler`):
query the `status-index` for `pending` invoices, then run the loop. -/
def runCycleSol (env : SolWatcherEnv) (store : Store) : CycleState :=
  let items := List.filter (fun inv => inv.status = .pending) store
  List.foldl (processSolInvoice env) ⟨store, [], []⟩ items

/-! ## Sweepers.  Both sweepers end a successful record iteration with a
`DocumentClient.update` setting `status = 'swept'`, `sweptAt = now`; the
call carries no `ConditionExpression` in either source file. -/

/-- The sweepers' mark-as-swept update (unconditional, as in the source). -/
def markSwept (now : Nat) (store : Store) (invoiceId : String) : Store :=
  dynUpdate store invoiceId (fun inv => { inv with status := .swept, sweptAt := some now })

/-- A DynamoDB stream record as consumed by both sweepers: the event
name and the unmarshalled `NewImage`. -/
structure FeedRecord where
  eventName : String
  newImage : Invoice
deriving DecidableEq, Repr

/-- On-chain operations submitted by the Solana sweeper. -/
inductive SolTx where
  | transfer (source dest : String) (lamports : Nat)
  | topUp (dest : String) (lamports : Nat)
  | createAta (mint : String)
  | splTransfer (mint source dest : String) (amount : Nat)
deriving DecidableEq, Repr

/-- Solana chain state read and written by the sweeper: lamport balances
per address, SPL balances per (mint, owner), whether the treasury's
associated token account exists per mint, the rent-exemption minimum,
and the fee estimated for the native test transfer. -/
structure SolChain where
  lamports : List (String × Nat)
  splBalances : List ((String × String) × Nat)
  treasuryAtaExists : List (String × Bool)
  rentExemption : Nat
  estimatedFee : Nat
deriving DecidableEq, Repr

/-- `connection.getBalance`: absent accounts read as zero. -/
def SolChain.getLamports (c : SolChain) (addr : String) : Nat :=
  (Option.map Prod.snd (List.find? (fun p => p.1 = addr) c.lamports)).getD 0

def SolChain.setLamports (c : SolChain) (addr : String) (v : Nat) : SolChain :=
  { c with lamports :=
      if List.any c.lamports (fun p => p.1 = addr) then
        List.map (fun p => if p.1 = addr then (p.1, v) else p) c.lamports
      else c.lamports ++ [(addr, v)] }

/-- `getAccount` on the source associated token account for (mint, owner). -/
def SolChain.getSpl (c : SolChain) (mint owner : String) : Nat :=
  (Option.map Prod.snd (List.find? (fun p => p.1 = (mint, owner)) c.splBalances)).getD 0

def SolChain.setSpl (c : SolChain) (mint owner : String) (v : Nat) : SolChain :=
  { c with splBalances :=
      List.map (fun p => if p.1 = (mint, owner) then (p.1, v) else p) c.splBalances }

def SolChain.ataExists (c : SolChain) (mint : String) : Bool :=
  (Option.map Prod.snd (List.find? (fun p => p.1 = mint) c.treasuryAtaExists)).getD false

/-- Fixed configuration of the Solana sweeper: key re-derivation from a
stored path (the sweeper recomputes the deposit address from
`newImage.path`), the treasury public key and `now`. -/
structure SolEnv where
  deriveAddr : String → String
  treasury : String
  now : Nat

/-- `ensureSufficientRent`: if the invoice address holds fewer lamports
than `required`, submit a hot-wallet top-up of exactly the shortfall and
re-read the balance (modelled as the deposit landing with no concurrent
movement). -/
def ensureSufficientRent (chain : SolChain) (addr : String) (required : Nat) :
    SolChain × List SolTx :=
  let balance := chain.getLamports addr
  if balance < required then
    (chain.setLamports addr (balance + (required - balance)),
     [SolTx.topUp addr (required - balance)])
  else
    (chain, [])

/-- Result of one Solana sweeper invocation. -/
structure SolRun where
  chain : SolChain
  store : Store
  txs : List SolTx
  sweptCount : Nat
deriving DecidableEq, Repr

/-- One iteration of the Solana sweeper's record loop
(`non-evm-deployments/solana/lambda/sweeper/index.js`): skip non
insert/modify events and non-`paid` images; the `SOL` branch skips when
`balance ≤ estimatedFee` and otherwise drains `balance − estimatedFee`
to the treasury (the invoice address pays the fee, ending at zero); the
`SPL` branch skips a zero token balance, tops up rent, creates the
treasury associated token account if missing, and transfers the full
token balance; any record falling through the currency branches reaches
the mark-as-swept update directly. -/
def solSweepRecord (env : SolEnv) (st : SolRun) (rec : FeedRecord) : SolRun :=
  if rec.eventName ≠ "MODIFY" ∧ rec.eventName ≠ "INSERT" then st
  else if rec.newImage.status ≠ .paid then st
  else
    let inv := rec.newImage
    let addr := env.deriveAddr inv.path
    if inv.currency = "SOL" then
      let balance := st.chain.getLamports addr
      let fee := st.chain.estimatedFee
      if balance ≤ fee then st
      else
        let sweepAmount := balance - fee
        let chain1 := st.chain.setLamports env.treasury
          (st.chain.getLamports env.treasury + sweepAmount)
        let chain2 := chain1.setLamports addr 0
        { chain := chain2
          store := markSwept env.now st.store inv.invoiceId
          txs := st.txs ++ [SolTx.transfer addr env.treasury sweepAmount]
          sweptCount := st.sweptCount + 1 }
    else
      match inv.tokenMint with
      | some mint =>
        if inv.currency = "SPL" then
          let tokenBalance := st.chain.getSpl mint addr
          if tokenBalance = 0 then st
          else
            let required := st.chain.rentExemption * 2
            let (chain1, topTxs) := ensureSufficientRent st.chain addr required
            let ataTxs := if chain1.ataExists mint then [] else [SolTx.createAta mint]
            let chain2 := chain1.setSpl mint addr 0
            { chain := chain2
              store := markSwept env.now st.store inv.invoiceId
              txs := st.txs ++ topTxs ++ ataTxs
                ++ [SolTx.splTransfer mint addr env.treasury tokenBalance]
              sweptCount := st.sweptCount + 1 }
        else
          { st with
            store := markSwept env.now st.store inv.invoiceId
            sweptCount := st.sweptCount + 1 }
      | none =>
        { st with
          store := markSwept env.now st.store inv.invoiceId
          sweptCount := st.sweptCount + 1 }

/-- The Solana sweeper handler: fold the record loop over the event's
records starting from `sweptCount = 0`. -/
def solHandler (env : SolEnv) (chain : SolChain) (store : Store)
    (records : List FeedRecord) : SolRun :=
  List.foldl (solSweepRecord env) ⟨chain, store, [], 0⟩ records

/-! ## EVM sweeper (`lambda/sweeper/index.js`). -/

/-- `addGasBuffer(estimatedGas)` with the default 10% buffer. -/
def addGasBuffer (estimatedGas : Nat) : Nat :=
  estimatedGas * (100 + 10) / 100

/-- On-chain operations submitted by the EVM sweeper. -/
inductive EthTx where
  | send (source dest : String) (wei : Nat)
  | topUp (dest : String) (wei : Nat)
  | tokenTransfer (token source dest : String) (amount : Nat)
deriving DecidableEq, Repr

/-- EVM chain state: wei balances per address, ERC-20 balances per
(token, holder), a gas price, and the `estimateGas` results for the
native and token sweep transactions. -/
structure EthChain where
  wei : List (String × Nat)
  tokenBalances : List ((String × String) × Nat)
  gasPrice : Nat
  estimateGasNative : Nat
  estimateGasToken : Nat
deriving DecidableEq, Repr

def EthChain.getWei (c : EthChain) (addr : String) : Nat :=
  (Option.map Prod.snd (List.find? (fun p => p.1 = addr) c.wei)).getD 0

def EthChain.setWei (c : EthChain) (addr : String) (v : Nat) : EthChain :=
  { c with wei :=
      if List.any c.wei (fun p => p.1 = addr) then
        List.map (fun p => if p.1 = addr then (p.1, v) else p) c.wei
      else c.wei ++ [(addr, v)] }

def EthChain.getToken (c : EthChain) (token holder : String) : Nat :=
  (Option.map Prod.snd (List.find? (fun p => p.1 = (token, holder)) c.tokenBalances)).getD 0

def EthChain.setToken (c : EthChain) (token holder : String) (v : Nat) : EthChain :=
  { c with tokenBalances :=
      List.map (fun p => if p.1 = (token, holder) then (p.1, v) else p) c.tokenBalances }

/-- Fixed configuration of the EVM sweeper: address re-derivation from
the stored HD path, the treasury address and `now`. -/
structure EthEnv where
  deriveAddr : String → String
  treasury : String
  now : Nat

/-- `ensureSufficientGas`: if the deposit address's ETH balance is
strictly below the estimated fee, submit a hot-wallet top-up of exactly
the shortfall and re-read the balance (modelled as the top-up landing
with no concurrent movement), so the returned balance is the estimated
fee itself; otherwise return the balance unchanged. -/
def ensureSufficientGas (chain : EthChain) (addr : String) (estimatedFee : Nat) :
    EthChain × List EthTx × Nat :=
  let ethBalance := chain.getWei addr
  if ethBalance < estimatedFee then
    (chain.setWei addr (ethBalance + (estimatedFee - ethBalance)),
     [EthTx.topUp addr (estimatedFee - ethBalance)],
     ethBalance + (estimatedFee - ethBalance))
  else
    (chain, [], ethBalance)

/-- Result of one EVM sweeper invocation. -/
structure EthRun where
  chain : EthChain
  store : Store
  txs : List EthTx
  sweptCount : Nat
deriving DecidableEq, Repr

/-- One iteration of the EVM sweeper's record loop: skip non
insert/modify events and non-`paid` images; the `ETH` branch estimates
the fee, calls `ensureSufficientGas` (topping up from the hot wallet
when the balance is below the fee) and then always submits a sweep of
`ethBalance − estimatedFee` wei (zero when the balance was only just
topped up to the fee); the token branch skips a zero balance, ensures
gas the same way, and transfers the full token balance.  A missing
`tokenAddress` makes the contract constructor throw in the source; the
record is then skipped by the per-record `catch` with no update.  Every
successful branch ends in the unconditional mark-as-swept update. -/
def ethSweepRecord (env : EthEnv) (st : EthRun) (rec : FeedRecord) : EthRun :=
  if rec.eventName ≠ "MODIFY" ∧ rec.eventName ≠ "INSERT" then st
  else if rec.newImage.status ≠ .paid then st
  else
    let inv := rec.newImage
    let addr := env.deriveAddr inv.path
    if inv.currency = "ETH" then
      let estimatedGas := addGasBuffer st.chain.estimateGasNative
      let estimatedFee := estimatedGas * st.chain.gasPrice
      let (chain1, gasTxs, ethBalance) := ensureSufficientGas st.chain addr estimatedFee
      let sweepAmount := ethBalance - estimatedFee
      let chain2 := chain1.setWei env.treasury (chain1.getWei env.treasury + sweepAmount)
      let chain3 := chain2.setWei addr 0
      { chain := chain3
        store := markSwept env.now st.store inv.invoiceId
        txs := st.txs ++ gasTxs ++ [EthTx.send addr env.treasury sweepAmount]
        sweptCount := st.sweptCount + 1 }
    else
      match inv.tokenAddress with
      | some token =>
        let tokenBalance := st.chain.getToken token addr
        if tokenBalance = 0 then st
        else
          let estimatedGas := addGasBuffer st.chain.estimateGasToken
          let estimatedFee := estimatedGas * st.chain.gasPrice
          let (chain1, gasTxs, _) := ensureSufficientGas st.chain addr estimatedFee
          let chain2 := chain1.setToken token addr 0
          { chain := chain2
            store := markSwept env.now st.store inv.invoiceId
            txs := st.txs ++ gasTxs ++ [EthTx.tokenTransfer token addr env.treasury tokenBalance]
            sweptCount := st.sweptCount + 1 }
      | none => st

/-- The EVM sweeper handler: fold the record loop over the event's
records starting from `sweptCount = 0`. -/
def ethHandler (env : EthEnv) (chain : EthChain) (store : Store)
    (records : List FeedRecord) : EthRun :=
  List.foldl (ethSweepRecord env) ⟨chain, store, [], 0⟩ records

/-! ## Invoice issuers (the handler stored next to the EVM sweeper, and
`non-evm-deployments/solana/lambda/invoice/index.js`). -/

/-- The counter-table update
`SET currentIndex = if_not_exists(currentIndex, 0) + 1` with
`ReturnValues: UPDATED_NEW`: on a missing counter the old value reads as
0, and the returned `currentIndex` is the post-increment value. -/
def atomicIncrement (counter : Option Nat) : Nat × Option Nat :=
  let newValue := counter.getD 0 + 1
  (newValue, some newValue)

/-- A single apostrophe, used for hardened path segments. -/
def hardened : String :=
  String.singleton (Char.ofNat 39)

/-- The EVM issuer's derivation path for `index`. -/
def hdPathEvm (index : Nat) : String :=
  "m/44" ++ hardened ++ "/60" ++ hardened ++ "/0" ++ hardened ++ "/0/" ++ Nat.repr index

/-- The Solana issuer's derivation path for `index`. -/
def hdPathSol (index : Nat) : String :=
  "m/44" ++ hardened ++ "/501" ++ hardened ++ "/" ++ Nat.repr index
    ++ hardened ++ "/0" ++ hardened

/-- Result of one issuer invocation: the counter table, the invoice
table, the stored invoice, and the `index` echoed in the HTTP response. -/
structure IssueResult where
  counter : Option Nat
  store : Store
  invoice : Invoice
  index : Nat
deriving DecidableEq, Repr

/-- The EVM issuer handler after body defaulting: increment the counter,
derive the path and address from the post-increment index, build the
`pending` item and persist it with a plain `put`. -/
def issueInvoice (deriveAddr : String → String) (now : Nat) (uuid : String)
    (currency : String) (tokenAddress : Option String) (tokenSymbol : String)
    (amount : String) (counter : Option Nat) (store : Store) : IssueResult :=
  let (index, counter1) := atomicIncrement counter
  let path := hdPathEvm index
  let address := deriveAddr path
  let item : Invoice :=
    { invoiceId := uuid
      address := address
      path := path
      currency := currency
      tokenAddress := tokenAddress
      tokenSymbol := tokenSymbol
      amount := amount
      status := .pending
      createdAt := now }
  { counter := counter1
    store := dynPut store item
    invoice := item
    index := index }

/-- The Solana issuer handler after body defaulting; identical control
flow with the Solana path scheme and `tokenMint` field. -/
def issueInvoiceSol (deriveAddr : String → String) (now : Nat) (uuid : String)
    (currency : String) (tokenMint : Option String) (tokenSymbol : String)
    (amount : String) (counter : Option Nat) (store : Store) : IssueResult :=
  let (index, counter1) := atomicIncrement counter
  let path := hdPathSol index
  let address := deriveAddr path
  let item : Invoice :=
    { invoiceId := uuid
      address := address
      path := path
      currency := currency
      tokenMint := tokenMint
      tokenSymbol := tokenSymbol
      amount := amount
      status := .pending
      createdAt := now }
  { counter := counter1
    store := dynPut store item
    invoice := item
    index := index }

/-! ## Administrative handlers (the invoice-admin handler in the EVM
deployment, and the admin part of the Solana invoice Lambda). -/

/-- The EVM admin handler's transition table (`allowedTransitions`):
`paid` and `swept` are immutable. -/
def allowedTransitions : Status → List String
  | .pending => ["cancelled"]
  | .cancelled => ["pending"]
  | .paid => []
  | .swept => []

/-- `updateInvoiceStatus` from the EVM admin handler: 400 on a missing
requested status, 404 on a missing invoice, 400 when the requested
status is not in `allowedTransitions[currentStatus]`, otherwise an
update setting `status` and `updatedAt`.  Returns the HTTP status code
and the resulting table. -/
def updateInvoiceStatus (now : Nat) (store : Store) (invoiceId : String)
    (requested : Option String) : Nat × Store :=
  match requested with
  | none => (400, store)
  | some status =>
    match getInvoice store invoiceId with
    | none => (404, store)
    | some current =>
      if status ∈ allowedTransitions current.status then
        (200, dynUpdate store invoiceId (fun inv =>
          { inv with status := (parseStatus status).getD inv.status, updatedAt := some now }))
      else
        (400, store)

/-- `updateInvoice` from the Solana admin handler: 400 on a missing
requested status, 404 on a missing invoice, 403 when the current status
is `paid` or `swept`, 400 when the requested status is neither
`pending` nor `cancelled`, otherwise an update setting `status` and
`updatedAt`. -/
def updateInvoiceSol (now : Nat) (store : Store) (invoiceId : String)
    (requested : Option String) : Nat × Store :=
  match requested with
  | none => (400, store)
  | some status =>
    match getInvoice store invoiceId with
    | none => (404, store)
    | some current =>
      if current.status = .paid ∨ current.status = .swept then
        (403, store)
      else if status ≠ "pending" ∧ status ≠ "cancelled" then
        (400, store)
      else
        (200, dynUpdate store invoiceId (fun inv =>
          { inv with status := (parseStatus status).getD inv.status, updatedAt := some now }))

/-! ## Concrete fixtures used by counterexamples and witnesses. -/

/-- A pending ETH invoice requesting 1 ETH. -/
def invEth : Invoice :=
  { invoiceId := "I1", address := "0xdep", path := "p1", currency := "ETH"
    amount := "1.0", status := .pending }

/-- Watcher oracles reporting a zero balance everywhere. -/
def envW : WatcherEnv :=
  { ethBalanceOf := fun _ => 0, tokenBalanceOf := fun _ _ => 0
    tokenDecimalsOf := fun _ => 6, now := 7 }

/-- An invoice whose stored status is `cancelled`. -/
def invCancelled : Invoice :=
  { invoiceId := "I2", address := "a2", path := "p2", currency := "ETH"
    amount := "1.0", status := .cancelled }

/-- Solana sweeper configuration with a distinguishable derived address. -/
def envS : SolEnv := { deriveAddr := fun p => p ++ "@", treasury := "T", now := 9 }

/-- A `paid` record whose currency is neither `SOL` nor `SPL` and whose
`tokenMint` is non-null. -/
def invUsdc : Invoice :=
  { invoiceId := "I3", address := "p3@", path := "p3", currency := "USDC"
    tokenMint := some "M", amount := "5", status := .paid }

/-- Chain state for the unknown-currency record. -/
def chainS : SolChain :=
  { lamports := [("p3@", 50)], splBalances := [], treasuryAtaExists := []
    rentExemption := 10, estimatedFee := 5 }

/-- A `paid` SOL invoice. -/
def invSol : Invoice :=
  { invoiceId := "I4", address := "p4@", path := "p4", currency := "SOL"
    amount := "0.01", status := .paid }

/-- The same invoice as held in a store where an admin cancelled it
after the `paid` change event was emitted. -/
def invSolCancelled : Invoice :=
  { invSol with status := .cancelled }

/-- Chain state for the SOL sweep: 100 lamports at the deposit address,
estimated fee 5. -/
def chainSol : SolChain :=
  { lamports := [("p4@", 100)], splBalances := [], treasuryAtaExists := []
    rentExemption := 10, estimatedFee := 5 }

/-- Chain state for the low-balance SOL case: 3 lamports, fee 5. -/
def chainSolLow : SolChain :=
  { lamports := [("p4@", 3)], splBalances := [], treasuryAtaExists := []
    rentExemption := 10, estimatedFee := 5 }

/-- EVM sweeper configuration. -/
def envE : EthEnv := { deriveAddr := fun p => p ++ "#", treasury := "TR", now := 3 }

/-- A `paid` ETH invoice. -/
def invEthPaid : Invoice :=
  { invoiceId := "I5", address := "p5#", path := "p5", currency := "ETH"
    amount := "0.01", status := .paid }

/-- EVM chain state: 5 wei at the deposit address, buffered fee 11. -/
def chainE : EthChain :=
  { wei := [("p5#", 5)], tokenBalances := [], gasPrice := 1
    estimateGasNative := 10, estimateGasToken := 10 }

/-- EVM chain state with a funded deposit address: 100 wei, buffered
fee 11. -/
def chainEHigh : EthChain :=
  { wei := [("p5#", 100)], tokenBalances := [], gasPrice := 1
    estimateGasNative := 10, estimateGasToken := 10 }

/-- Solana watcher oracles whose sufficiency comparisons report an
insufficient balance everywhere. -/
def envSWIns : SolWatcherEnv :=
  { solBalanceOf := fun _ => 3, splBalanceOf := fun _ _ => 10
    splAccountExists := fun _ _ => true, mintDecimalsOf := fun _ => 6
    solSufficient := fun _ _ => false, splSufficient := fun _ _ _ => false
    now := 7 }

/-- A pending SOL invoice. -/
def invSolPending : Invoice :=
  { invoiceId := "I9", address := "a9", path := "p9", currency := "SOL"
    amount := "0.01", status := .pending }

/-- A pending SPL invoice with a token mint. -/
def invSplPending : Invoice :=
  { invoiceId := "I10", address := "a10", path := "p10", currency := "SPL"
    tokenMint := some "M", amount := "5", status := .pending }

/-- An invoice whose stored status is `swept`. -/
def invSwept : Invoice :=
  { invoiceId := "I6", address := "a6", path := "p6", currency := "ETH"
    amount := "1", status := .swept }

/-- An invoice whose stored status is `paid`. -/
def invPaid : Invoice :=
  { invoiceId := "I7", address := "a7", path := "p7", currency := "ETH"
    amount := "1", status := .paid }

/-- A pending ERC-20 invoice requesting 5.00 tokens. -/
def invTok : Invoice :=
  { invoiceId := "I8", address := "a8", path := "p8", currency := "ERC20"
    tokenAddress := some "TOK", amount := "5.00", status := .pending }

/-- Watcher oracles for the token boundary scenario: decimals 6 and a
parameterized token balance. -/
def envTok (balance : Nat) : WatcherEnv :=
  { ethBalanceOf := fun _ => 0, tokenBalanceOf := fun _ _ => balance
    tokenDecimalsOf := fun _ => 6, now := 7 }

/-! ## Helper lemmas. -/

/-- A key-preserving `dynUpdate` rewrites exactly the record under its key. -/
theorem getInvoice_dynUpdate (store : Store) (id : String) (f : Invoice → Invoice)
    (hf : ∀ inv, (f inv).invoiceId = inv.invoiceId) :
    getInvoice (dynUpdate store id f) id = Option.map f (getInvoice store id) := by
  induction store with
  | nil => rfl
  | cons a l ih =>
    by_cases h : a.invoiceId = id
    · simp [getInvoice, dynUpdate, List.find?_cons, h, hf a]
    · simp only [getInvoice, dynUpdate, List.map_cons, List.find?_cons] at ih ⊢
      simp [h, ih]

/-- Replacing the matching record keeps it findable under the key. -/
theorem find_map_put (l : List Invoice) (item : Invoice)
    (hany : ∃ x ∈ l, x.invoiceId = item.invoiceId) :
    List.find? (fun inv => inv.invoiceId = item.invoiceId)
      (List.map (fun inv => if inv.invoiceId = item.invoiceId then item else inv) l)
      = some item := by
  induction l with
  | nil => simp at hany
  | cons a l ih =>
    by_cases h : a.invoiceId = item.invoiceId
    · simp [List.find?_cons, h]
    · obtain ⟨x, hx, hxid⟩ := hany
      rcases List.mem_cons.mp hx with rfl | hx2
      · exact absurd hxid h
      · simp [List.find?_cons, h, ih ⟨x, hx2, hxid⟩]

/-- Appending the item after a key-free prefix makes it the find result. -/
theorem find_append_put (l : List Invoice) (item : Invoice)
    (hnone : ∀ x ∈ l, ¬ x.invoiceId = item.invoiceId) :
    List.find? (fun inv => inv.invoiceId = item.invoiceId) (l ++ [item]) = some item := by
  induction l with
  | nil => simp
  | cons a l ih =>
    have h := hnone a (List.mem_cons_self a l)
    simp only [List.cons_append, List.find?_cons]
    simp [h, ih (fun x hx => hnone x (List.mem_cons_of_mem a hx))]

/-- `dynPut` always stores the item under its key. -/
theorem getInvoice_dynPut (store : Store) (item : Invoice) :
    getInvoice (dynPut store item) item.invoiceId = some item := by
  unfold dynPut getInvoice
  by_cases hany : ∃ x ∈ store, x.invoiceId = item.invoiceId
  · rw [if_pos (by simpa using hany)]
    exact find_map_put store item hany
  · rw [if_neg (by simpa using hany)]
    exact find_append_put store item (by simpa using hany)

/-- Rewriting the matching balance entry keeps it findable under the key. -/
theorem find_map_set (l : List (String × Nat)) (a : String) (v : Nat)
    (hany : ∃ x ∈ l, x.1 = a) :
    List.find? (fun p => p.1 = a)
      (List.map (fun p => if p.1 = a then (p.1, v) else p) l) = some (a, v) := by
  induction l with
  | nil => simp at hany
  | cons x l ih =>
    by_cases h : x.1 = a
    · simp [List.find?_cons, h]
    · obtain ⟨y, hy, hyid⟩ := hany
      rcases List.mem_cons.mp hy with rfl | hy2
      · exact absurd hyid h
      · simp [List.find?_cons, h, ih ⟨y, hy2, hyid⟩]

/-- Appending a balance entry after a key-free prefix makes it the find
result. -/
theorem find_append_set (l : List (String × Nat)) (a : String) (v : Nat)
    (hnone : ∀ x ∈ l, ¬ x.1 = a) :
    List.find? (fun p => p.1 = a) (l ++ [(a, v)]) = some (a, v) := by
  induction l with
  | nil => simp
  | cons x l ih =>
    have h := hnone x (List.mem_cons_self x l)
    simp only [List.cons_append, List.find?_cons]
    simp [h, ih (fun y hy => hnone y (List.mem_cons_of_mem x hy))]

/-- `getLamports` after `setLamports` at the same address. -/
theorem getLamports_setLamports_self (c : SolChain) (a : String) (v : Nat) :
    (c.setLamports a v).getLamports a = v := by
  unfold SolChain.setLamports SolChain.getLamports
  by_cases hany : ∃ x ∈ c.lamports, x.1 = a
  · simp only [if_pos (show List.any c.lamports (fun p => p.1 = a) = true by simpa using hany)]
    simp [find_map_set c.lamports a v hany]
  · simp only [if_neg (show ¬ List.any c.lamports (fun p => p.1 = a) = true by simpa using hany)]
    have hn : ∀ x ∈ c.lamports, ¬ x.1 = a := by push_neg at hany; exact hany
    rw [find_append_set c.lamports a v hn]
    rfl

/-- A modify record whose image is not `paid` is skipped entirely. -/
theorem solHandler_skip_nonpaid (env : SolEnv) (chain : SolChain) (store : Store)
    (inv : Invoice) (hs : inv.status ≠ .paid) :
    solHandler env chain store [⟨"MODIFY", inv⟩] = ⟨chain, store, [], 0⟩ := by
  simp [solHandler, solSweepRecord, hs]

/-- The SOL branch with `balance ≤ estimatedFee` is a complete no-op. -/
theorem solHandler_sol_low (env : SolEnv) (chain : SolChain) (store : Store)
    (inv : Invoice) (hs : inv.status = .paid) (hc : inv.currency = "SOL")
    (hb : chain.getLamports (env.deriveAddr inv.path) ≤ chain.estimatedFee) :
    solHandler env chain store [⟨"MODIFY", inv⟩] = ⟨chain, store, [], 0⟩ := by
  simp [solHandler, solSweepRecord, hs, hc, hb]

/-- The SOL branch with `balance > estimatedFee` drains the address. -/
theorem solHandler_sol_high (env : SolEnv) (chain : SolChain) (store : Store)
    (inv : Invoice) (hs : inv.status = .paid) (hc : inv.currency = "SOL")
    (hb : chain.estimatedFee < chain.getLamports (env.deriveAddr inv.path)) :
    solHandler env chain store [⟨"MODIFY", inv⟩] =
      ⟨((chain.setLamports env.treasury (chain.getLamports env.treasury
            + (chain.getLamports (env.deriveAddr inv.path) - chain.estimatedFee))).setLamports
          (env.deriveAddr inv.path) 0),
        markSwept env.now store inv.invoiceId,
        [SolTx.transfer (env.deriveAddr inv.path) env.treasury
          (chain.getLamports (env.deriveAddr inv.path) - chain.estimatedFee)],
        1⟩ := by
  simp [solHandler, solSweepRecord, hs, hc, Nat.not_le.mpr hb]

/-- The ETH branch with `balance < estimatedFee`: the hot wallet tops up
the shortfall and a zero-value sweep is still submitted. -/
theorem ethHandler_eth_low (env : EthEnv) (chain : EthChain) (store : Store)
    (inv : Invoice) (hs : inv.status = .paid) (hc : inv.currency = "ETH")
    (hb : chain.getWei (env.deriveAddr inv.path)
        < addGasBuffer chain.estimateGasNative * chain.gasPrice) :
    (ethHandler env chain store [⟨"MODIFY", inv⟩]).txs
        = [EthTx.topUp (env.deriveAddr inv.path)
             (addGasBuffer chain.estimateGasNative * chain.gasPrice
               - chain.getWei (env.deriveAddr inv.path)),
           EthTx.send (env.deriveAddr inv.path) env.treasury 0]
      ∧ (ethHandler env chain store [⟨"MODIFY", inv⟩]).store
        = markSwept env.now store inv.invoiceId := by
  constructor <;>
    simp [ethHandler, ethSweepRecord, ensureSufficientGas, hs, hc, hb,
      Nat.sub_add_cancel (Nat.le_of_lt hb), Nat.add_sub_cancel' (Nat.le_of_lt hb)]

/-- The ETH branch with `balance ≥ estimatedFee`: no top-up, sweep of
`balance − estimatedFee`. -/
theorem ethHandler_eth_high (env : EthEnv) (chain : EthChain) (store : Store)
    (inv : Invoice) (hs : inv.status = .paid) (hc : inv.currency = "ETH")
    (hb : addGasBuffer chain.estimateGasNative * chain.gasPrice
        ≤ chain.getWei (env.deriveAddr inv.path)) :
    (ethHandler env chain store [⟨"MODIFY", inv⟩]).txs
        = [EthTx.send (env.deriveAddr inv.path) env.treasury
            (chain.getWei (env.deriveAddr inv.path)
              - addGasBuffer chain.estimateGasNative * chain.gasPrice)]
      ∧ (ethHandler env chain store [⟨"MODIFY", inv⟩]).store
        = markSwept env.now store inv.invoiceId := by
  constructor <;>
    simp [ethHandler, ethSweepRecord, ensureSufficientGas, hs, hc, Nat.not_lt.mpr hb]

/-- `getWei` after `setWei` at the same address. -/
theorem getWei_setWei_self (c : EthChain) (a : String) (v : Nat) :
    (c.setWei a v).getWei a = v := by
  unfold EthChain.setWei EthChain.getWei
  by_cases hany : ∃ x ∈ c.wei, x.1 = a
  · simp only [if_pos (show List.any c.wei (fun p => p.1 = a) = true by simpa using hany)]
    simp [find_map_set c.wei a v hany]
  · simp only [if_neg (show ¬ List.any c.wei (fun p => p.1 = a) = true by simpa using hany)]
    have hn : ∀ x ∈ c.wei, ¬ x.1 = a := by push_neg at hany; exact hany
    rw [find_append_set c.wei a v hn]
    rfl

/-- An EVM modify record whose image is not `paid` is skipped entirely. -/
theorem ethHandler_skip_nonpaid (env : EthEnv) (chain : EthChain) (store : Store)
    (inv : Invoice) (hs : inv.status ≠ .paid) :
    ethHandler env chain store [⟨"MODIFY", inv⟩] = ⟨chain, store, [], 0⟩ := by
  simp [ethHandler, ethSweepRecord, hs]

/-- Full result of the ETH branch with `balance ≥ estimatedFee`:
sweep of `balance − estimatedFee`, deposit address drained to zero. -/
theorem ethHandler_eth_high_full (env : EthEnv) (chain : EthChain) (store : Store)
    (inv : Invoice) (hs : inv.status = .paid) (hc : inv.currency = "ETH")
    (hb : addGasBuffer chain.estimateGasNative * chain.gasPrice
        ≤ chain.getWei (env.deriveAddr inv.path)) :
    ethHandler env chain store [⟨"MODIFY", inv⟩] =
      ⟨((chain.setWei env.treasury (chain.getWei env.treasury
            + (chain.getWei (env.deriveAddr inv.path)
                - addGasBuffer chain.estimateGasNative * chain.gasPrice))).setWei
          (env.deriveAddr inv.path) 0),
        markSwept env.now store inv.invoiceId,
        [EthTx.send (env.deriveAddr inv.path) env.treasury
          (chain.getWei (env.deriveAddr inv.path)
            - addGasBuffer chain.estimateGasNative * chain.gasPrice)],
        1⟩ := by
  simp [ethHandler, ethSweepRecord, ensureSufficientGas, hs, hc, Nat.not_lt.mpr hb]

/-! ## Claim theorems. -/

/-- C10: there is an input to the Solana sweeper handler — a change-feed
record whose new image has status `paid` and a currency that is neither
`SOL` nor `SPL` with a non-null `tokenMint` — on which the handler
transitions the invoice to `swept` and increments the swept count
without submitting any on-chain transaction. -/
theorem sol_sweep_unknown_currency_marks_swept :
    invUsdc.status = .paid
    ∧ invUsdc.currency ≠ "SOL" ∧ invUsdc.currency ≠ "SPL" ∧ invUsdc.tokenMint ≠ none
    ∧ (solHandler envS chainS [invUsdc] [⟨"MODIFY", invUsdc⟩]).txs = []
    ∧ (solHandler envS chainS [invUsdc] [⟨"MODIFY", invUsdc⟩]).sweptCount = 1
    ∧ getInvoice (solHandler envS chainS [invUsdc] [⟨"MODIFY", invUsdc⟩]).store "I3"
        = some { invUsdc with status := .swept, sweptAt := some 9 } := by
  decide

/-- Shared rejection core of both administrative update handlers when
the current stored status is `paid` or `swept`. -/
theorem adminRejectPaidSwept (now : Nat) (store : Store) (id : String) (inv : Invoice)
    (req : String) (h : getInvoice store id = some inv)
    (hs : inv.status = .paid ∨ inv.status = .swept) :
    updateInvoiceStatus now store id (some req) = (400, store)
    ∧ updateInvoiceSol now store id (some req) = (403, store) := by
  rcases hs with hp | hp <;>
    simp [updateInvoiceStatus, updateInvoiceSol, h, hp, allowedTransitions]

/-- C4: for every invoice whose current stored status is `paid` or
`swept`, every administrative status-update request — whatever target
status it asks for — is rejected with an error (HTTP 400 in the EVM
handler, 403 in the Solana handler) and the table is left unchanged. -/
theorem admin_update_rejected_on_paid_or_swept (now : Nat) (store : Store) (id : String)
    (inv : Invoice) (req : String) (h : getInvoice store id = some inv)
    (hs : inv.status = .paid ∨ inv.status = .swept) :
    updateInvoiceStatus now store id (some req) = (400, store)
    ∧ updateInvoiceSol now store id (some req) = (403, store) :=
  adminRejectPaidSwept now store id inv req h hs

/-- C4 witness: a request to set a `swept` invoice's status to
`pending` is rejected and the table is unchanged in both handlers. -/
theorem admin_update_rejected_on_paid_or_swept_witness :
    updateInvoiceStatus 1 [invSwept] "I6" (some "pending") = (400, [invSwept])
    ∧ updateInvoiceSol 1 [invSwept] "I6" (some "pending") = (403, [invSwept]) :=
  admin_update_rejected_on_paid_or_swept 1 [invSwept] "I6" invSwept "pending"
    (by decide) (by decide)

/-- C6 counterexample: the administrative toggle the claim relies on is
impossible — a request to set a `paid` invoice back to `pending` is
rejected by both handlers and the record is unchanged. -/
theorem admin_toggle_paid_to_pending_rejected_cex :
    invPaid.status = .paid
    ∧ updateInvoiceStatus 1 [invPaid] "I7" (some "pending") = (400, [invPaid])
    ∧ updateInvoiceSol 1 [invPaid] "I7" (some "pending") = (403, [invPaid]) := by
  decide

/-- C6 amended: a stuck `paid` invoice is not recoverable through the
administrative interface: every status-update request on a `paid`
invoice — in particular to `pending` — is rejected and the record is
left unchanged, so the paid event cannot be re-delivered by toggling. -/
theorem paid_invoice_not_admin_recoverable (now : Nat) (store : Store) (id : String)
    (inv : Invoice) (req : String) (h : getInvoice store id = some inv)
    (hp : inv.status = .paid) :
    updateInvoiceStatus now store id (some req) = (400, store)
    ∧ updateInvoiceSol now store id (some req) = (403, store) :=
  adminRejectPaidSwept now store id inv req h (Or.inl hp)

/-- C6 witness: the rejection at a concrete `paid` invoice asked to go
back to `pending`. -/
theorem paid_invoice_not_admin_recoverable_witness :
    updateInvoiceStatus 1 [invPaid] "I7" (some "cancelled") = (400, [invPaid])
    ∧ updateInvoiceSol 1 [invPaid] "I7" (some "cancelled") = (403, [invPaid]) :=
  paid_invoice_not_admin_recoverable 1 [invPaid] "I7" invPaid "cancelled"
    (by decide) (by decide)

/-- C2 counterexample: `markPaid` carries no condition — applied to a
record whose stored status is `cancelled` it does not leave the record
unchanged, it overwrites the status to `paid`. -/
theorem markPaid_overwrites_cancelled_cex :
    invCancelled.status = .cancelled
    ∧ markPaid 7 [invCancelled] "I2" ≠ [invCancelled]
    ∧ getInvoice (markPaid 7 [invCancelled] "I2") "I2"
        = some { invCancelled with status := .paid, paidAt := some 7 } := by
  decide

/-- C2 amended: the pending→paid write is an unconditional update: for
every stored record, `markPaid` sets `status = paid` and `paidAt = now`
regardless of the record's current status (in particular it overwrites
a concurrent cancellation instead of leaving the record unchanged). -/
theorem markPaid_unconditional (now : Nat) (store : Store) (id : String) (inv : Invoice)
    (h : getInvoice store id = some inv) :
    getInvoice (markPaid now store id) id
      = some { inv with status := .paid, paidAt := some now } := by
  rw [markPaid, getInvoice_dynUpdate store id
    (fun inv => { inv with status := .paid, paidAt := some now }) (fun _ => rfl), h]
  rfl

/-- C2 witness: `markPaid` applied to a concrete `cancelled` record. -/
theorem markPaid_unconditional_witness :
    getInvoice (markPaid 7 [invCancelled] "I2") "I2"
      = some { invCancelled with status := .paid, paidAt := some 7 } :=
  markPaid_unconditional 7 [invCancelled] "I2" invCancelled (by decide)

/-- C5 counterexample: a pending invoice whose balance is below the
required amount is recorded in the cycle's failed list (the source
throws `Insufficient ...` and the per-invoice catch records it), while
the claim says it appears in neither list. -/
theorem watcher_insufficient_in_failed_cex :
    invEth.status = .pending
    ∧ parseEther invEth.amount = some 1000000000000000000
    ∧ envW.ethBalanceOf invEth.address = 0
    ∧ (runCycle envW [invEth]).failed = ["I1"]
    ∧ (runCycle envW [invEth]).processed = [] := by
  decide

/-- C5 amended: in every watcher branch of both variants, a pending
invoice whose balance check deems it insufficient — in the EVM watcher
a checked balance strictly below the exact required base units (ETH and
ERC-20 branches), in the Solana watcher the floating-point sufficiency
comparison returning false (SOL and SPL branches) — is left in
`pending` and absent from the processed list, but it is recorded in the
cycle's failed list with an insufficient-balance error; the one
exception is an SPL invoice whose token account does not yet exist,
which is only logged and appears in neither list. -/
theorem watcher_insufficient_recorded_failed :
    (∀ (env : WatcherEnv) (inv : Invoice) (required : Nat),
      inv.status = .pending → inv.currency = "ETH" →
      parseEther inv.amount = some required →
      env.ethBalanceOf inv.address < required →
      runCycle env [inv] = ⟨[inv], [], [inv.invoiceId]⟩)
    ∧ (∀ (env : WatcherEnv) (inv : Invoice) (token : String) (required : Nat),
      inv.status = .pending → inv.currency = "ERC20" →
      inv.tokenAddress = some token →
      parseUnits inv.amount (env.tokenDecimalsOf token) = some required →
      env.tokenBalanceOf token inv.address < required →
      runCycle env [inv] = ⟨[inv], [], [inv.invoiceId]⟩)
    ∧ (∀ (env : SolWatcherEnv) (inv : Invoice),
      inv.status = .pending → inv.currency = "SOL" →
      env.solSufficient (env.solBalanceOf inv.address) inv.amount = false →
      runCycleSol env [inv] = ⟨[inv], [], [inv.invoiceId]⟩)
    ∧ (∀ (env : SolWatcherEnv) (inv : Invoice) (mint : String),
      inv.status = .pending → inv.currency = "SPL" →
      inv.tokenMint = some mint →
      env.splAccountExists mint inv.address = true →
      env.splSufficient (env.splBalanceOf mint inv.address) inv.amount
        (env.mintDecimalsOf mint) = false →
      runCycleSol env [inv] = ⟨[inv], [], [inv.invoiceId]⟩) := by
  refine ⟨?_, ?_, ?_, ?_⟩
  · intro env inv required hs hc hp hb
    simp [runCycle, processInvoice, hs, hc, hp, Nat.not_le.mpr hb]
  · intro env inv token required hs hc ht hp hb
    simp [runCycle, processInvoice, hs, hc, ht, hp, Nat.not_le.mpr hb]
  · intro env inv hs hc hso
    simp [runCycleSol, processSolInvoice, hs, hc, hso]
  · intro env inv mint hs hc ht hex hsuf
    simp [runCycleSol, processSolInvoice, hs, hc, ht, hex, hsuf]

/-- C5 witness: the failed recording at concrete underfunded invoices
in all four branches (ETH, ERC-20 at the 4,999,999 boundary, SOL, SPL). -/
theorem watcher_insufficient_recorded_failed_witness :
    runCycle envW [invEth] = ⟨[invEth], [], ["I1"]⟩
    ∧ runCycle (envTok 4999999) [invTok] = ⟨[invTok], [], ["I8"]⟩
    ∧ runCycleSol envSWIns [invSolPending] = ⟨[invSolPending], [], ["I9"]⟩
    ∧ runCycleSol envSWIns [invSplPending] = ⟨[invSplPending], [], ["I10"]⟩ :=
  ⟨watcher_insufficient_recorded_failed.1 envW invEth 1000000000000000000
      (by decide) (by decide) (by decide) (by decide),
   watcher_insufficient_recorded_failed.2.1 (envTok 4999999) invTok "TOK" 5000000
      (by decide) (by decide) (by decide) (by decide) (by decide),
   watcher_insufficient_recorded_failed.2.2.1 envSWIns invSolPending
      (by decide) (by decide) (by decide),
   watcher_insufficient_recorded_failed.2.2.2 envSWIns invSplPending "M"
      (by decide) (by decide) (by decide) (by decide) (by decide)⟩

/-- For a pending ERC-20 invoice, the EVM watcher computes the required
amount as the exact base-unit scaling of `requestedAmount` by the
token's on-chain decimals (`parseUnits`), and the invoice transitions to
`paid` if and only if `required ≤ balance`, exactly at the boundary.
(This is the exactly-statable part of the boundary-exactness property;
the Solana watcher decides sufficiency in floating point, whose
semantics are outside this embedding.) -/
theorem watcher_paid_iff_required_le_balance (env : WatcherEnv) (inv : Invoice)
    (token : String) (required : Nat)
    (hs : inv.status = .pending) (hc : inv.currency = "ERC20")
    (ht : inv.tokenAddress = some token)
    (hp : parseUnits inv.amount (env.tokenDecimalsOf token) = some required) :
    getInvoice (runCycle env [inv]).store inv.invoiceId
        = some { inv with status := .paid, paidAt := some env.now }
      ↔ required ≤ env.tokenBalanceOf token inv.address := by
  by_cases hble : required ≤ env.tokenBalanceOf token inv.address
  · have hrun : runCycle env [inv]
        = ⟨markPaid env.now [inv] inv.invoiceId, [inv.invoiceId], []⟩ := by
      simp [runCycle, processInvoice, hs, hc, ht, hp, hble]
    rw [hrun]
    constructor
    · intro _; exact hble
    · intro _
      rw [markPaid, getInvoice_dynUpdate [inv] inv.invoiceId
        (fun j => { j with status := .paid, paidAt := some env.now }) (fun _ => rfl)]
      simp [getInvoice]
  · have hrun : runCycle env [inv] = ⟨[inv], [], [inv.invoiceId]⟩ := by
      simp [runCycle, processInvoice, hs, hc, ht, hp, hble]
    rw [hrun]
    constructor
    · intro hEq
      exfalso
      have hinv : inv = { inv with status := .paid, paidAt := some env.now } := by
        simpa [getInvoice] using hEq
      have hstat := congrArg Invoice.status hinv
      rw [hs] at hstat
      simp at hstat
    · intro hle; exact absurd hle hble

/-- The 5.00-token, 6-decimal boundary instance: required is exactly
5,000,000 base units; a balance of 5,000,000 transitions to `paid` and
4,999,999 does not. -/
theorem watcher_paid_iff_required_le_balance_witness :
    parseUnits "5.00" 6 = some 5000000
    ∧ getInvoice (runCycle (envTok 5000000) [invTok]).store "I8"
        = some { invTok with status := .paid, paidAt := some 7 }
    ∧ ¬ getInvoice (runCycle (envTok 4999999) [invTok]).store "I8"
        = some { invTok with status := .paid, paidAt := some 7 } :=
  ⟨by decide,
   (watcher_paid_iff_required_le_balance (envTok 5000000) invTok "TOK" 5000000
      (by decide) (by decide) (by decide) (by decide)).mpr (by decide),
   fun hpaid =>
     absurd ((watcher_paid_iff_required_le_balance (envTok 4999999) invTok "TOK" 5000000
       (by decide) (by decide) (by decide) (by decide)).mp hpaid) (by decide)⟩

/-- C1 counterexample: the paid→swept write is not a conditional update
— processing a `paid` change-feed image while the stored record has
meanwhile been cancelled still overwrites the stored status to `swept`,
which the claimed guard would have rejected. -/
theorem sweeper_swept_update_unconditional_cex :
    getInvoice [invSolCancelled] "I4" = some invSolCancelled
    ∧ invSolCancelled.status = .cancelled
    ∧ getInvoice (solHandler envS chainSol [invSolCancelled] [⟨"MODIFY", invSol⟩]).store "I4"
        = some { invSolCancelled with status := .swept, sweptAt := some 9 } := by
  decide

/-- C1 amended: after a first fully successful sweep of a funded
`paid` invoice the record is `swept`, but not through a conditional
update — the stored paid-to-swept write is unconditional.  A second
invocation triggered by the swept-status change event is a no-op in
both sweepers (the handler skips records whose new image status is not
`paid`).  Under redelivery of the original paid image, the Solana
handler submits no second transfer (the drained balance fails its
`balance > fee` check), so exactly one on-chain transfer results; the
EVM handler has no such skip: it submits a second hot-wallet top-up of
the full estimated fee and a zero-value transfer, and re-marks the
invoice swept. -/
theorem sweep_second_call_behavior :
    (∀ (env : SolEnv) (chain : SolChain) (store : Store) (inv : Invoice),
      inv.status = .paid → inv.currency = "SOL" →
      chain.estimatedFee < chain.getLamports (env.deriveAddr inv.path) →
      (solHandler env chain store [⟨"MODIFY", inv⟩]).txs
          = [SolTx.transfer (env.deriveAddr inv.path) env.treasury
              (chain.getLamports (env.deriveAddr inv.path) - chain.estimatedFee)]
      ∧ getInvoice (solHandler env chain store [⟨"MODIFY", inv⟩]).store inv.invoiceId
          = Option.map (fun j => { j with status := .swept, sweptAt := some env.now })
              (getInvoice store inv.invoiceId)
      ∧ solHandler env (solHandler env chain store [⟨"MODIFY", inv⟩]).chain
          (solHandler env chain store [⟨"MODIFY", inv⟩]).store
          [⟨"MODIFY", { inv with status := .swept, sweptAt := some env.now }⟩]
          = ⟨(solHandler env chain store [⟨"MODIFY", inv⟩]).chain,
             (solHandler env chain store [⟨"MODIFY", inv⟩]).store, [], 0⟩
      ∧ solHandler env (solHandler env chain store [⟨"MODIFY", inv⟩]).chain
          (solHandler env chain store [⟨"MODIFY", inv⟩]).store [⟨"MODIFY", inv⟩]
          = ⟨(solHandler env chain store [⟨"MODIFY", inv⟩]).chain,
             (solHandler env chain store [⟨"MODIFY", inv⟩]).store, [], 0⟩)
    ∧ (∀ (env : EthEnv) (chain : EthChain) (store : Store) (inv : Invoice),
      inv.status = .paid → inv.currency = "ETH" →
      addGasBuffer chain.estimateGasNative * chain.gasPrice
          ≤ chain.getWei (env.deriveAddr inv.path) →
      0 < addGasBuffer chain.estimateGasNative * chain.gasPrice →
      (ethHandler env chain store [⟨"MODIFY", inv⟩]).txs
          = [EthTx.send (env.deriveAddr inv.path) env.treasury
              (chain.getWei (env.deriveAddr inv.path)
                - addGasBuffer chain.estimateGasNative * chain.gasPrice)]
      ∧ getInvoice (ethHandler env chain store [⟨"MODIFY", inv⟩]).store inv.invoiceId
          = Option.map (fun j => { j with status := .swept, sweptAt := some env.now })
              (getInvoice store inv.invoiceId)
      ∧ ethHandler env (ethHandler env chain store [⟨"MODIFY", inv⟩]).chain
          (ethHandler env chain store [⟨"MODIFY", inv⟩]).store
          [⟨"MODIFY", { inv with status := .swept, sweptAt := some env.now }⟩]
          = ⟨(ethHandler env chain store [⟨"MODIFY", inv⟩]).chain,
             (ethHandler env chain store [⟨"MODIFY", inv⟩]).store, [], 0⟩
      ∧ (ethHandler env (ethHandler env chain store [⟨"MODIFY", inv⟩]).chain
          (ethHandler env chain store [⟨"MODIFY", inv⟩]).store [⟨"MODIFY", inv⟩]).txs
          = [EthTx.topUp (env.deriveAddr inv.path)
              (addGasBuffer chain.estimateGasNative * chain.gasPrice),
             EthTx.send (env.deriveAddr inv.path) env.treasury 0]
      ∧ (ethHandler env (ethHandler env chain store [⟨"MODIFY", inv⟩]).chain
          (ethHandler env chain store [⟨"MODIFY", inv⟩]).store [⟨"MODIFY", inv⟩]).store
          = markSwept env.now (ethHandler env chain store [⟨"MODIFY", inv⟩]).store
              inv.invoiceId) := by
  constructor
  · intro env chain store inv hs hc hb
    have h1 := solHandler_sol_high env chain store inv hs hc hb
    refine ⟨?_, ?_, ?_, ?_⟩
    · rw [h1]
    · rw [h1]
      rw [markSwept, getInvoice_dynUpdate store inv.invoiceId
        (fun j => { j with status := .swept, sweptAt := some env.now }) (fun _ => rfl)]
    · exact solHandler_skip_nonpaid env _ _ _ (by simp)
    · apply solHandler_sol_low env _ _ inv hs hc
      rw [h1]
      simp [getLamports_setLamports_self]
  · intro env chain store inv hs hc hb hfee
    have h1 := ethHandler_eth_high_full env chain store inv hs hc hb
    have hdrained : (ethHandler env chain store [⟨"MODIFY", inv⟩]).chain.getWei
        (env.deriveAddr inv.path) = 0 := by
      rw [h1]; exact getWei_setWei_self _ _ 0
    have hb2 : (ethHandler env chain store [⟨"MODIFY", inv⟩]).chain.getWei
          (env.deriveAddr inv.path)
        < addGasBuffer (ethHandler env chain store
            [⟨"MODIFY", inv⟩]).chain.estimateGasNative
          * (ethHandler env chain store [⟨"MODIFY", inv⟩]).chain.gasPrice := by
      rw [hdrained, h1]
      exact hfee
    have h2 := ethHandler_eth_low env (ethHandler env chain store [⟨"MODIFY", inv⟩]).chain
      (ethHandler env chain store [⟨"MODIFY", inv⟩]).store inv hs hc hb2
    refine ⟨?_, ?_, ?_, ?_, ?_⟩
    · rw [h1]
    · rw [h1]
      rw [markSwept, getInvoice_dynUpdate store inv.invoiceId
        (fun j => { j with status := .swept, sweptAt := some env.now }) (fun _ => rfl)]
    · exact ethHandler_skip_nonpaid env _ _ _ (by simp)
    · rw [h2.1, hdrained, h1]
      simp [EthChain.setWei]
    · exact h2.2

/-- C1 witness: the two-call behavior at concrete funded invoices — a
SOL invoice with 100 lamports and fee 5 (one transfer of 95, paid-image
redelivery a no-op) and an ETH invoice with 100 wei and buffered fee 11
(first sweep of 89; paid-image redelivery submits a top-up of 11 and a
zero-value transfer). -/
theorem sweep_second_call_behavior_witness :
    (solHandler envS chainSol [invSol] [⟨"MODIFY", invSol⟩]).txs
        = [SolTx.transfer "p4@" "T" 95]
    ∧ solHandler envS (solHandler envS chainSol [invSol] [⟨"MODIFY", invSol⟩]).chain
        (solHandler envS chainSol [invSol] [⟨"MODIFY", invSol⟩]).store [⟨"MODIFY", invSol⟩]
        = ⟨(solHandler envS chainSol [invSol] [⟨"MODIFY", invSol⟩]).chain,
           (solHandler envS chainSol [invSol] [⟨"MODIFY", invSol⟩]).store, [], 0⟩
    ∧ (ethHandler envE chainEHigh [invEthPaid] [⟨"MODIFY", invEthPaid⟩]).txs
        = [EthTx.send "p5#" "TR" 89]
    ∧ (ethHandler envE (ethHandler envE chainEHigh [invEthPaid] [⟨"MODIFY", invEthPaid⟩]).chain
        (ethHandler envE chainEHigh [invEthPaid] [⟨"MODIFY", invEthPaid⟩]).store
        [⟨"MODIFY", invEthPaid⟩]).txs
        = [EthTx.topUp "p5#" 11, EthTx.send "p5#" "TR" 0] :=
  ⟨(sweep_second_call_behavior.1 envS chainSol [invSol] invSol
      (by decide) (by decide) (by decide)).1,
   (sweep_second_call_behavior.1 envS chainSol [invSol] invSol
      (by decide) (by decide) (by decide)).2.2.2,
   (sweep_second_call_behavior.2 envE chainEHigh [invEthPaid] invEthPaid
      (by decide) (by decide) (by decide) (by decide)).1,
   (sweep_second_call_behavior.2 envE chainEHigh [invEthPaid] invEthPaid
      (by decide) (by decide) (by decide) (by decide)).2.2.2.1⟩

/-- C3 counterexample: in the EVM native branch a balance (5 wei) at or
below the estimated fee (11 wei) is not a no-op — the sweeper tops up 6
wei from the hot wallet, submits a zero-value transfer, and marks the
invoice swept. -/
theorem eth_sweep_low_balance_not_noop_cex :
    invEthPaid.status = .paid ∧ invEthPaid.currency = "ETH"
    ∧ chainE.getWei "p5#" = 5
    ∧ addGasBuffer chainE.estimateGasNative * chainE.gasPrice = 11
    ∧ (ethHandler envE chainE [invEthPaid] [⟨"MODIFY", invEthPaid⟩]).txs
        = [EthTx.topUp "p5#" 6, EthTx.send "p5#" "TR" 0]
    ∧ getInvoice (ethHandler envE chainE [invEthPaid] [⟨"MODIFY", invEthPaid⟩]).store "I5"
        = some { invEthPaid with status := .swept, sweptAt := some 3 } := by
  decide

/-- C3 amended: the Solana native branch behaves as claimed — balance ≤
fee is a complete no-op (no transfer, no top-up, not marked swept) and
otherwise exactly `balance − estimatedFee` is transferred; the EVM
native branch instead always sweeps: at `balance < fee` it tops up the
shortfall from the hot wallet, submits a transfer of zero, and still
marks the invoice swept, and at `balance ≥ fee` it transfers
`balance − estimatedFee`. -/
theorem native_sweep_amounts :
    (∀ (env : SolEnv) (chain : SolChain) (store : Store) (inv : Invoice),
      inv.status = .paid → inv.currency = "SOL" →
        (chain.getLamports (env.deriveAddr inv.path) ≤ chain.estimatedFee →
          solHandler env chain store [⟨"MODIFY", inv⟩] = ⟨chain, store, [], 0⟩)
        ∧ (chain.estimatedFee < chain.getLamports (env.deriveAddr inv.path) →
          (solHandler env chain store [⟨"MODIFY", inv⟩]).txs
              = [SolTx.transfer (env.deriveAddr inv.path) env.treasury
                  (chain.getLamports (env.deriveAddr inv.path) - chain.estimatedFee)]
          ∧ (solHandler env chain store [⟨"MODIFY", inv⟩]).store
              = markSwept env.now store inv.invoiceId))
    ∧ (∀ (env : EthEnv) (chain : EthChain) (store : Store) (inv : Invoice),
      inv.status = .paid → inv.currency = "ETH" →
        (chain.getWei (env.deriveAddr inv.path)
            < addGasBuffer chain.estimateGasNative * chain.gasPrice →
          (ethHandler env chain store [⟨"MODIFY", inv⟩]).txs
              = [EthTx.topUp (env.deriveAddr inv.path)
                  (addGasBuffer chain.estimateGasNative * chain.gasPrice
                    - chain.getWei (env.deriveAddr inv.path)),
                 EthTx.send (env.deriveAddr inv.path) env.treasury 0]
          ∧ (ethHandler env chain store [⟨"MODIFY", inv⟩]).store
              = markSwept env.now store inv.invoiceId)
        ∧ (addGasBuffer chain.estimateGasNative * chain.gasPrice
            ≤ chain.getWei (env.deriveAddr inv.path) →
          (ethHandler env chain store [⟨"MODIFY", inv⟩]).txs
              = [EthTx.send (env.deriveAddr inv.path) env.treasury
                  (chain.getWei (env.deriveAddr inv.path)
                    - addGasBuffer chain.estimateGasNative * chain.gasPrice)]
          ∧ (ethHandler env chain store [⟨"MODIFY", inv⟩]).store
              = markSwept env.now store inv.invoiceId)) := by
  constructor
  · intro env chain store inv hs hc
    constructor
    · intro hb; exact solHandler_sol_low env chain store inv hs hc hb
    · intro hb
      have h1 := solHandler_sol_high env chain store inv hs hc hb
      rw [h1]
      exact ⟨rfl, rfl⟩
  · intro env chain store inv hs hc
    exact ⟨fun hb => ethHandler_eth_low env chain store inv hs hc hb,
           fun hb => ethHandler_eth_high env chain store inv hs hc hb⟩

/-- C3 witness: concrete instances of all three behaviors — the SOL
no-op at balance 3 ≤ fee 5, the SOL drain of 95 lamports at balance
100, and the EVM top-up-plus-zero-transfer at balance 5 < fee 11. -/
theorem native_sweep_amounts_witness :
    solHandler envS chainSolLow [invSol] [⟨"MODIFY", invSol⟩] = ⟨chainSolLow, [invSol], [], 0⟩
    ∧ (solHandler envS chainSol [invSol] [⟨"MODIFY", invSol⟩]).txs
        = [SolTx.transfer "p4@" "T" 95]
    ∧ (ethHandler envE chainE [invEthPaid] [⟨"MODIFY", invEthPaid⟩]).txs
        = [EthTx.topUp "p5#" 6, EthTx.send "p5#" "TR" 0] :=
  ⟨(native_sweep_amounts.1 envS chainSolLow [invSol] invSol (by decide) (by decide)).1
      (by decide),
   ((native_sweep_amounts.1 envS chainSol [invSol] invSol (by decide) (by decide)).2
      (by decide)).1,
   ((native_sweep_amounts.2 envE chainE [invEthPaid] invEthPaid (by decide) (by decide)).1
      (by decide)).1⟩

/-- C7 counterexample: the issuer's persist is a plain `put` — issuing
with an `invoiceId` that already exists in the table succeeds (no
`DuplicateInvoiceError` exists anywhere in the source) and replaces the
pre-existing record. -/
theorem issue_overwrites_existing_cex :
    getInvoice [invSwept] "I6" = some invSwept
    ∧ (issueInvoice (fun p => p) 0 "I6" "ETH" none "ETH" "0.01" (some 4) [invSwept]).store
        = [(issueInvoice (fun p => p) 0 "I6" "ETH" none "ETH" "0.01" (some 4) [invSwept]).invoice]
    ∧ (issueInvoice (fun p => p) 0 "I6" "ETH" none "ETH" "0.01" (some 4) [invSwept]).invoice
        ≠ invSwept := by
  decide

/-- C7 amended: `issue()` persists with an unconditional put: the write
always succeeds and the record stored under the new invoice's id is the
new invoice, replacing any pre-existing record with the same id. -/
theorem issue_put_overwrites (deriveAddr : String → String) (now : Nat)
    (uuid currency : String) (tokenAddress : Option String) (tokenSymbol amount : String)
    (counter : Option Nat) (store : Store) :
    getInvoice
        (issueInvoice deriveAddr now uuid currency tokenAddress tokenSymbol amount
          counter store).store uuid
      = some (issueInvoice deriveAddr now uuid currency tokenAddress tokenSymbol amount
          counter store).invoice :=
  getInvoice_dynPut store _

/-- C8 counterexample: the very first issuance (counter attribute not
yet initialized) receives post-increment index 1, not 0, in both
issuers, and the first derivation path encodes index 1. -/
theorem first_issue_index_not_zero_cex :
    (issueInvoice (fun p => p) 0 "U" "ETH" none "ETH" "0.01" none []).index = 1
    ∧ (issueInvoice (fun p => p) 0 "U" "ETH" none "ETH" "0.01" none []).index ≠ 0
    ∧ (issueInvoice (fun p => p) 0 "U" "ETH" none "ETH" "0.01" none []).invoice.path
        = hdPathEvm 1
    ∧ (issueInvoiceSol (fun p => p) 0 "U" "SOL" none "SOL" "0.01" none []).index = 1 := by
  decide

/-- C8 amended: on the very first `issue()` call the atomic counter
update returns the post-increment value 1, so the first invoice's
address is derived at index 1 of the hierarchical path in both the EVM
and the Solana issuer. -/
theorem first_issue_uses_index_one (deriveAddr : String → String) (now : Nat)
    (uuid currency : String) (tokenAddress : Option String) (tokenSymbol amount : String)
    (store : Store) :
    (issueInvoice deriveAddr now uuid currency tokenAddress tokenSymbol amount
        none store).index = 1
    ∧ (issueInvoice deriveAddr now uuid currency tokenAddress tokenSymbol amount
        none store).invoice.path = hdPathEvm 1
    ∧ (issueInvoiceSol deriveAddr now uuid currency none tokenSymbol amount
        none store).index = 1
    ∧ (issueInvoiceSol deriveAddr now uuid currency none tokenSymbol amount
        none store).invoice.path = hdPathSol 1 :=
  ⟨rfl, rfl, rfl, rfl⟩
